import Mathlib

/-!
Verification of the session and token lifecycle subsystem of the dashboard
backend (file src/backend/src/routes/auth.route.ts).

The embedding models the four lifecycle operations (signup, login, refresh,
logout) as pure functions from a store of user records to a result holding
the HTTP status, the JSON message, the cookie operations performed on the
response, and the updated store.  The JWT library is abstracted: signing is
an opaque string-producing parameter and verification is a parameter
returning either the decoded username claim or one of the two failure kinds
the handler distinguishes (TokenExpiredError versus any other error).  The
persistence layer (drizzle / sqlite) is modelled by a list of records; a
row update keyed on the id column is a map over the list touching every
record with that id, exactly as a WHERE clause does.
-/

namespace LabDash

/-- A row of the users table: id (primary key), username, passwordHash,
role, and the refreshTokens column (stored as a JSON array of strings in
the database, modelled directly as the decoded list). -/
structure UserRecord where
  id : Nat
  username : String
  passwordHash : String
  role : String
  refreshTokens : List String
deriving DecidableEq

/-- The persisted user store, in row order. -/
abbrev Store := List UserRecord

/-- A cookie operation performed on the response: res.cookie (set) or
res.clearCookie (clear), with the httpOnly flag of the options object and,
for set, the maxAge in milliseconds. -/
inductive CookieOp where
  | set (name value : String) (httpOnly : Bool) (maxAge : Nat)
  | clear (name : String) (httpOnly : Bool)
deriving DecidableEq

/-- The two failure kinds of jwt.verify the refresh handler distinguishes:
err.name === TokenExpiredError, and every other signature or format
failure. -/
inductive VerifyError where
  | expired
  | invalid
deriving DecidableEq

/-- ACCESS_TOKEN_EXPIRY = 3d (the cryptographic expiry of an access
token), in milliseconds. -/
def ACCESS_TOKEN_EXPIRY_MS : Nat := 3 * 24 * 60 * 60 * 1000

/-- REFRESH_TOKEN_EXPIRY = 7d (the cryptographic expiry of a refresh
token), in milliseconds. -/
def REFRESH_TOKEN_EXPIRY_MS : Nat := 7 * 24 * 60 * 60 * 1000

/-- maxAge of the access_token cookie: 24 * 60 * 60 * 1000 (1 day). -/
def accessCookieMaxAge : Nat := 24 * 60 * 60 * 1000

/-- maxAge of the refresh_token cookie: 7 * 24 * 60 * 60 * 1000 (7 days). -/
def refreshCookieMaxAge : Nat := 7 * 24 * 60 * 60 * 1000

/-- db.select().from(users).where(eq(users.username, name)).get() :
first row whose username column equals the argument. -/
def findByUsername (store : Store) (name : String) : Option UserRecord :=
  store.find? (fun u => u.username == name)

/-- db.update(users).set(\x7b refreshTokens \x7d).where(eq(users.id, id)).run() :
every row whose id column equals the argument gets the new token list. -/
def updateTokensById (store : Store) (id : Nat) (tokens : List String) : Store :=
  store.map (fun u => if u.id == id then { u with refreshTokens := tokens } else u)

/-- Autoincrement primary key for an inserted row. -/
def freshId (store : Store) : Nat :=
  (store.map (fun u => u.id)).foldr max 0 + 1

/-- The reuse-sweep loop of the refresh handler: for every user, filter the
presented token value out of the refreshTokens list (the per-user write is
skipped when nothing changed, which is observationally the same store). -/
def sweepAllUsers (store : Store) (token : String) : Store :=
  store.map (fun u =>
    { u with refreshTokens := u.refreshTokens.filter (fun t => !(t == token)) })

/-- The logout loop: scan users in row order, remove the token value from
the first user whose list contains it (filter removes every occurrence in
that one list), then break. -/
def removeTokenFirstMatch : Store → String → Store
  | [], _ => []
  | u :: rest, token =>
    if token ∈ u.refreshTokens then
      { u with refreshTokens := u.refreshTokens.filter (fun t => !(t == token)) } :: rest
    else
      u :: removeTokenFirstMatch rest token

/-- The pair of clearCookie calls (access_token then refresh_token, both
httpOnly) used by the expired, user-missing and token-not-found branches of
the refresh handler. -/
def clearAuthCookies : List CookieOp :=
  [CookieOp.clear "access_token" true, CookieOp.clear "refresh_token" true]

/-- The four clearCookie calls of the logout handler: the httpOnly pair and
the additional non-httpOnly pair. -/
def logoutClearCookies : List CookieOp :=
  [CookieOp.clear "access_token" true, CookieOp.clear "refresh_token" true,
   CookieOp.clear "access_token" false, CookieOp.clear "refresh_token" false]

/-- Result of the signup route: status, message, updated store. -/
structure SignupResult where
  status : Nat
  message : String
  store : Store
deriving DecidableEq

/-- POST /signup.  bcrypt.hash is abstracted by the hash argument.  Input
validation treats an empty string as missing (falsy in the source).  Role
assignment: admin iff the users table is empty at this call. -/
def signup (store : Store) (username password hash : String) : SignupResult :=
  if username == "" || password == "" then
    ⟨400, "Username and password are required", store⟩
  else if (findByUsername store username).isSome then
    ⟨409, "Username already exists", store⟩
  else
    let role := if store.length == 0 then "admin" else "user"
    ⟨201, "User created successfully",
      store ++ [⟨freshId store, username, hash, role, []⟩]⟩

/-- Result of the login route: status, message, the isAdmin flag of the
success body, cookie operations, updated store. -/
structure LoginResult where
  status : Nat
  message : String
  isAdmin : Option Bool
  cookies : List CookieOp
  store : Store
deriving DecidableEq

/-- POST /login.  bcrypt.compare is abstracted by checkPassword (password,
storedHash); generateAccessToken / generateRefreshToken output for this
instant is abstracted by newAccessToken / newRefreshToken.  On success the
new refresh token is pushed onto the list of the user and the row is
persisted, then both cookies are set. -/
def login (store : Store) (username password : String)
    (checkPassword : String → String → Bool)
    (newAccessToken newRefreshToken : String) : LoginResult :=
  if username == "" || password == "" then
    ⟨400, "Username and password are required", none, [], store⟩
  else
    match findByUsername store username with
    | none => ⟨401, "Invalid credentials", none, [], store⟩
    | some user =>
      if checkPassword password user.passwordHash then
        ⟨200, "Login successful", some (user.role == "admin"),
          [CookieOp.set "access_token" newAccessToken true accessCookieMaxAge,
           CookieOp.set "refresh_token" newRefreshToken true refreshCookieMaxAge],
          updateTokensById store user.id (user.refreshTokens ++ [newRefreshToken])⟩
      else
        ⟨401, "Invalid credentials", none, [], store⟩

/-- Result of the refresh route: status, optional message (204 has no
body), the isAdmin flag of the success body, cookie operations, updated
store. -/
structure RefreshResult where
  status : Nat
  message : Option String
  isAdmin : Option Bool
  cookies : List CookieOp
  store : Store
deriving DecidableEq

/-- POST /refresh.  verify abstracts jwt.verify against
REFRESH_TOKEN_SECRET, returning the username claim or the failure kind;
genAccess abstracts generateAccessToken (username, role); newRefreshToken
abstracts the generateRefreshToken output for this instant.  The membership
test models tokenIndex = userRefreshTokens.indexOf(refreshToken) with the
branch tokenIndex === -1, and List.erase models splice(tokenIndex, 1),
removal of the first occurrence. -/
def refresh (store : Store) (cookieToken : Option String)
    (verify : String → Except VerifyError String)
    (genAccess : String → String → String)
    (newRefreshToken : String) : RefreshResult :=
  match cookieToken with
  | none => ⟨204, none, none, [], store⟩
  | some refreshToken =>
    match verify refreshToken with
    | Except.error VerifyError.expired =>
        ⟨401, some "Refresh token expired", none, clearAuthCookies, store⟩
    | Except.error VerifyError.invalid =>
        ⟨401, some "Invalid refresh token", none, [], store⟩
    | Except.ok username =>
      match findByUsername store username with
      | none => ⟨401, some "User not found", none, clearAuthCookies, store⟩
      | some user =>
        if refreshToken ∈ user.refreshTokens then
          ⟨200, some "Token refreshed successfully", some (user.role == "admin"),
            [CookieOp.set "access_token" (genAccess username user.role) true accessCookieMaxAge,
             CookieOp.set "refresh_token" newRefreshToken true refreshCookieMaxAge],
            updateTokensById store user.id
              (user.refreshTokens.erase refreshToken ++ [newRefreshToken])⟩
        else
          ⟨401, some "Refresh token not found", none, clearAuthCookies,
            sweepAllUsers store refreshToken⟩

/-- Result of the logout route: status, message, cookie operations,
updated store. -/
structure LogoutResult where
  status : Nat
  message : String
  cookies : List CookieOp
  store : Store
deriving DecidableEq

/-- POST /logout.  With no refresh_token cookie: success body, no cookie
mutation, no store change.  With a cookie: remove the token from the first
user whose list contains it, then clear all four cookie variants and
respond success, whether or not a user matched. -/
def logout (store : Store) (cookieToken : Option String) : LogoutResult :=
  match cookieToken with
  | none => ⟨200, "No session to logout", [], store⟩
  | some refreshToken =>
      ⟨200, "Logged out successfully", logoutClearCookies,
        removeTokenFirstMatch store refreshToken⟩

/-- C8: the maxAge of the access_token cookie (1 day) and of the
refresh_token cookie (7 days) are each at most the cryptographic expiry of
the corresponding token (3 days and 7 days). -/
theorem C8_cookie_lifetime_bound :
    accessCookieMaxAge ≤ ACCESS_TOKEN_EXPIRY_MS ∧
    refreshCookieMaxAge ≤ REFRESH_TOKEN_EXPIRY_MS := by
  decide

/-- C4: a login with an unknown username and a login with a known username
but a password that fails the hash comparison produce the same status 401,
the same message body, no cookies and no store change in both cases. -/
theorem C4_credential_opacity (store : Store) (u1 p1 u2 p2 : String)
    (check : String → String → Bool) (a1 r1 a2 r2 : String) (user : UserRecord)
    (hu1 : u1 ≠ "") (hp1 : p1 ≠ "") (hu2 : u2 ≠ "") (hp2 : p2 ≠ "")
    (hunknown : findByUsername store u1 = none)
    (hfound : findByUsername store u2 = some user)
    (hwrong : check p2 user.passwordHash = false) :
    (login store u1 p1 check a1 r1).status = 401 ∧
    (login store u2 p2 check a2 r2).status = 401 ∧
    (login store u1 p1 check a1 r1).message = (login store u2 p2 check a2 r2).message ∧
    (login store u1 p1 check a1 r1).message = "Invalid credentials" ∧
    (login store u1 p1 check a1 r1).cookies = [] ∧
    (login store u2 p2 check a2 r2).cookies = [] ∧
    (login store u1 p1 check a1 r1).store = store ∧
    (login store u2 p2 check a2 r2).store = store := by
  have hb1 : (u1 == "" || p1 == "") = false := by
    simp [hu1, hp1]
  have hb2 : (u2 == "" || p2 == "") = false := by
    simp [hu2, hp2]
  simp [login, hb1, hb2, hunknown, hfound, hwrong]

/-- C4 witness: concrete two-user-free store where alice exists with hash
h1 and bob is unknown. -/
theorem C4_credential_opacity_witness :
    (login [⟨1, "alice", "h1", "admin", []⟩] "bob" "pw" (fun p h => p == h) "a" "r").status = 401 ∧
    (login [⟨1, "alice", "h1", "admin", []⟩] "alice" "wrong" (fun p h => p == h) "a" "r").status = 401 ∧
    (login [⟨1, "alice", "h1", "admin", []⟩] "bob" "pw" (fun p h => p == h) "a" "r").message =
      (login [⟨1, "alice", "h1", "admin", []⟩] "alice" "wrong" (fun p h => p == h) "a" "r").message ∧
    (login [⟨1, "alice", "h1", "admin", []⟩] "bob" "pw" (fun p h => p == h) "a" "r").message = "Invalid credentials" ∧
    (login [⟨1, "alice", "h1", "admin", []⟩] "bob" "pw" (fun p h => p == h) "a" "r").cookies = [] ∧
    (login [⟨1, "alice", "h1", "admin", []⟩] "alice" "wrong" (fun p h => p == h) "a" "r").cookies = [] ∧
    (login [⟨1, "alice", "h1", "admin", []⟩] "bob" "pw" (fun p h => p == h) "a" "r").store = [⟨1, "alice", "h1", "admin", []⟩] ∧
    (login [⟨1, "alice", "h1", "admin", []⟩] "alice" "wrong" (fun p h => p == h) "a" "r").store = [⟨1, "alice", "h1", "admin", []⟩] :=
  C4_credential_opacity [⟨1, "alice", "h1", "admin", []⟩] "bob" "pw" "alice" "wrong"
    (fun p h => p == h) "a" "r" "a" "r" ⟨1, "alice", "h1", "admin", []⟩
    (by decide) (by decide) (by decide) (by decide) (by decide) (by decide) (by decide)

/-- Helper: after the reuse sweep, no user list contains the swept token. -/
theorem not_mem_sweepAllUsers (store : Store) (token : String) :
    ∀ u ∈ sweepAllUsers store token, token ∉ u.refreshTokens := by
  intro u hu
  simp only [sweepAllUsers, List.mem_map] at hu
  obtain ⟨x, hx, rfl⟩ := hu
  simp [List.mem_filter]

/-- C5: a refresh whose token verification fails with expiry clears both
cookies and answers 401 with the expired message; any other verification
failure answers 401 with the generic invalid message, touches no cookie,
and the two messages are distinguishable.  Neither path changes the
store. -/
theorem C5_refresh_failure_discrimination (store : Store) (R1 R2 : String)
    (verify : String → Except VerifyError String)
    (genAccess : String → String → String) (newR : String)
    (hexp : verify R1 = Except.error VerifyError.expired)
    (hinv : verify R2 = Except.error VerifyError.invalid) :
    (refresh store (some R1) verify genAccess newR).status = 401 ∧
    (refresh store (some R1) verify genAccess newR).message = some "Refresh token expired" ∧
    (refresh store (some R1) verify genAccess newR).cookies = clearAuthCookies ∧
    (refresh store (some R2) verify genAccess newR).status = 401 ∧
    (refresh store (some R2) verify genAccess newR).message = some "Invalid refresh token" ∧
    (refresh store (some R2) verify genAccess newR).cookies = [] ∧
    (refresh store (some R1) verify genAccess newR).message ≠
      (refresh store (some R2) verify genAccess newR).message ∧
    (refresh store (some R1) verify genAccess newR).store = store ∧
    (refresh store (some R2) verify genAccess newR).store = store := by
  have h1 : refresh store (some R1) verify genAccess newR =
      ⟨401, some "Refresh token expired", none, clearAuthCookies, store⟩ := by
    simp [refresh, hexp]
  have h2 : refresh store (some R2) verify genAccess newR =
      ⟨401, some "Invalid refresh token", none, [], store⟩ := by
    simp [refresh, hinv]
  rw [h1, h2]
  refine ⟨rfl, rfl, rfl, rfl, rfl, rfl, by simp, rfl, rfl⟩

/-- C5 witness: a verifier that reports token E expired and any other
token invalid, on a one-user store. -/
theorem C5_refresh_failure_discrimination_witness :
    (refresh [⟨1, "alice", "h", "admin", ["R"]⟩] (some "E")
      (fun t => if t == "E" then Except.error VerifyError.expired else Except.error VerifyError.invalid)
      (fun u _ => u) "N").status = 401 ∧
    (refresh [⟨1, "alice", "h", "admin", ["R"]⟩] (some "E")
      (fun t => if t == "E" then Except.error VerifyError.expired else Except.error VerifyError.invalid)
      (fun u _ => u) "N").cookies = clearAuthCookies ∧
    (refresh [⟨1, "alice", "h", "admin", ["R"]⟩] (some "X")
      (fun t => if t == "E" then Except.error VerifyError.expired else Except.error VerifyError.invalid)
      (fun u _ => u) "N").cookies = [] := by
  have h := C5_refresh_failure_discrimination [⟨1, "alice", "h", "admin", ["R"]⟩] "E" "X"
    (fun t => if t == "E" then Except.error VerifyError.expired else Except.error VerifyError.invalid)
    (fun u _ => u) "N" rfl rfl
  exact ⟨h.1, h.2.2.1, h.2.2.2.2.2.1⟩

/-- C2: a refresh whose token verifies to a username that exists but whose
token is absent from the list of that user removes every occurrence of the
token from the list of every user, clears both auth cookies, answers 401
with the not-recognized message, and sets no cookie (so it issues no new
access or refresh token). -/
theorem C2_reuse_sweep (store : Store) (R username : String) (user : UserRecord)
    (verify : String → Except VerifyError String)
    (genAccess : String → String → String) (newR : String)
    (hverify : verify R = Except.ok username)
    (hfound : findByUsername store username = some user)
    (habsent : R ∉ user.refreshTokens) :
    (refresh store (some R) verify genAccess newR).status = 401 ∧
    (refresh store (some R) verify genAccess newR).message = some "Refresh token not found" ∧
    (refresh store (some R) verify genAccess newR).cookies = clearAuthCookies ∧
    (∀ n v ho ma, CookieOp.set n v ho ma ∉ (refresh store (some R) verify genAccess newR).cookies) ∧
    (refresh store (some R) verify genAccess newR).isAdmin = none ∧
    ∀ u2 ∈ (refresh store (some R) verify genAccess newR).store, R ∉ u2.refreshTokens := by
  have hres : refresh store (some R) verify genAccess newR =
      ⟨401, some "Refresh token not found", none, clearAuthCookies, sweepAllUsers store R⟩ := by
    simp [refresh, hverify, hfound, habsent]
  rw [hres]
  refine ⟨rfl, rfl, rfl, ?_, rfl, not_mem_sweepAllUsers store R⟩
  intro n v ho ma h
  simp [clearAuthCookies] at h

/-- C2 witness: token R verifies as alice but sits on the list of bob; the
sweep removes it from bob while alice is answered 401 without new
tokens. -/
theorem C2_reuse_sweep_witness :
    (refresh [⟨1, "alice", "h1", "admin", ["R0"]⟩, ⟨2, "bob", "h2", "user", ["R"]⟩]
      (some "R")
      (fun t => if t == "R" then Except.ok "alice" else Except.error VerifyError.invalid)
      (fun u _ => u) "N").status = 401 ∧
    (refresh [⟨1, "alice", "h1", "admin", ["R0"]⟩, ⟨2, "bob", "h2", "user", ["R"]⟩]
      (some "R")
      (fun t => if t == "R" then Except.ok "alice" else Except.error VerifyError.invalid)
      (fun u _ => u) "N").message = some "Refresh token not found" ∧
    (refresh [⟨1, "alice", "h1", "admin", ["R0"]⟩, ⟨2, "bob", "h2", "user", ["R"]⟩]
      (some "R")
      (fun t => if t == "R" then Except.ok "alice" else Except.error VerifyError.invalid)
      (fun u _ => u) "N").cookies = clearAuthCookies := by
  have h := C2_reuse_sweep
    [⟨1, "alice", "h1", "admin", ["R0"]⟩, ⟨2, "bob", "h2", "user", ["R"]⟩]
    "R" "alice" ⟨1, "alice", "h1", "admin", ["R0"]⟩
    (fun t => if t == "R" then Except.ok "alice" else Except.error VerifyError.invalid)
    (fun u _ => u) "N" rfl (by decide) (by decide)
  exact ⟨h.1, h.2.1, h.2.2.1⟩

/-- Helper: when the token sits on no user list the logout scan changes
nothing. -/
theorem removeTokenFirstMatch_eq_of_absent (store : Store) (R : String)
    (h : ∀ u ∈ store, R ∉ u.refreshTokens) :
    removeTokenFirstMatch store R = store := by
  induction store with
  | nil => rfl
  | cons u rest ih =>
    have hu : R ∉ u.refreshTokens := h u (by simp)
    rw [removeTokenFirstMatch, if_neg hu]
    rw [ih (fun x hx => h x (by simp [hx]))]

/-- C3 counterexample: starting from a store where alice holds token R,
logout with R, then compare a second logout presenting R with a logout
presenting no cookie: the success messages differ (Logged out successfully
versus No session to logout) and the cookie mutations differ (four
clearCookie calls versus none), so the two calls do not behave
identically. -/
theorem C3_counterexample :
    (logout (logout [⟨1, "alice", "h", "admin", ["R"]⟩] (some "R")).store (some "R")).message ≠
      (logout (logout [⟨1, "alice", "h", "admin", ["R"]⟩] (some "R")).store none).message ∧
    (logout (logout [⟨1, "alice", "h", "admin", ["R"]⟩] (some "R")).store (some "R")).cookies ≠
      (logout (logout [⟨1, "alice", "h", "admin", ["R"]⟩] (some "R")).store none).cookies := by
  decide

/-- C3 amended: a second logout with an already-removed refresh token
agrees with the no-cookie logout on the 200 success status and on leaving
the persisted store unchanged, but unlike the no-cookie case it still
clears the four auth cookie variants and returns a different success
message. -/
theorem C3_second_logout (store : Store) (R : String)
    (habsent : ∀ u ∈ store, R ∉ u.refreshTokens) :
    (logout store (some R)).status = 200 ∧
    (logout store none).status = 200 ∧
    (logout store (some R)).store = store ∧
    (logout store none).store = store ∧
    (logout store (some R)).cookies = logoutClearCookies ∧
    (logout store none).cookies = [] ∧
    (logout store (some R)).message = "Logged out successfully" ∧
    (logout store none).message = "No session to logout" := by
  refine ⟨rfl, rfl, ?_, rfl, rfl, rfl, rfl, rfl⟩
  show removeTokenFirstMatch store R = store
  exact removeTokenFirstMatch_eq_of_absent store R habsent

/-- C3 witness: a store in which token R appears nowhere. -/
theorem C3_second_logout_witness :
    (logout [⟨1, "alice", "h", "admin", ["S"]⟩] (some "R")).status = 200 ∧
    (logout [⟨1, "alice", "h", "admin", ["S"]⟩] (some "R")).store = [⟨1, "alice", "h", "admin", ["S"]⟩] ∧
    (logout [⟨1, "alice", "h", "admin", ["S"]⟩] (some "R")).cookies = logoutClearCookies ∧
    (logout [⟨1, "alice", "h", "admin", ["S"]⟩] none).cookies = [] := by
  have h := C3_second_logout [⟨1, "alice", "h", "admin", ["S"]⟩] "R" (by decide)
  exact ⟨h.1, h.2.2.1, h.2.2.2.2.1, h.2.2.2.2.2.1⟩

/-- The (id, role) column view of the store, used to state that an
operation reassigns no role. -/
def rolesOf (store : Store) : List (Nat × String) :=
  store.map (fun u => (u.id, u.role))

/-- Helper: a token-list write keyed on id leaves every (id, role) pair in
place. -/
theorem rolesOf_updateTokensById (store : Store) (id : Nat) (tokens : List String) :
    rolesOf (updateTokensById store id tokens) = rolesOf store := by
  simp only [rolesOf, updateTokensById, List.map_map]
  apply List.map_congr_left
  intro u hu
  by_cases h : u.id == id <;> simp [Function.comp, h]

/-- Helper: the reuse sweep leaves every (id, role) pair in place. -/
theorem rolesOf_sweepAllUsers (store : Store) (token : String) :
    rolesOf (sweepAllUsers store token) = rolesOf store := by
  simp only [rolesOf, sweepAllUsers, List.map_map]
  apply List.map_congr_left
  intro u hu
  simp [Function.comp]

/-- Helper: the logout scan leaves every (id, role) pair in place. -/
theorem rolesOf_removeTokenFirstMatch (store : Store) (token : String) :
    rolesOf (removeTokenFirstMatch store token) = rolesOf store := by
  induction store with
  | nil => rfl
  | cons u rest ih =>
    rw [removeTokenFirstMatch]
    by_cases h : token ∈ u.refreshTokens
    · rw [if_pos h]
      simp [rolesOf]
    · rw [if_neg h]
      simp only [rolesOf, List.map_cons] at ih ⊢
      rw [ih]

/-- Helper: no branch of login changes any (id, role) pair. -/
theorem rolesOf_login (store : Store) (username password : String)
    (check : String → String → Bool) (a r : String) :
    rolesOf (login store username password check a r).store = rolesOf store := by
  unfold login
  by_cases hb : (username == "" || password == "") = true
  · simp [hb]
  · simp only [Bool.not_eq_true] at hb
    cases hf : findByUsername store username with
    | none => simp [hb, hf]
    | some user =>
      by_cases hp : check password user.passwordHash
      · simp [hb, hf, hp, rolesOf_updateTokensById]
      · simp [hb, hf, hp]

/-- Helper: no branch of refresh changes any (id, role) pair. -/
theorem rolesOf_refresh (store : Store) (cookieToken : Option String)
    (verify : String → Except VerifyError String)
    (genAccess : String → String → String) (newR : String) :
    rolesOf (refresh store cookieToken verify genAccess newR).store = rolesOf store := by
  cases cookieToken with
  | none => rfl
  | some R =>
    cases hv : verify R with
    | error e =>
      cases e
      · have h : (refresh store (some R) verify genAccess newR).store = store := by
          simp [refresh, hv]
        rw [h]
      · have h : (refresh store (some R) verify genAccess newR).store = store := by
          simp [refresh, hv]
        rw [h]
    | ok username =>
      cases hf : findByUsername store username with
      | none =>
        have h : (refresh store (some R) verify genAccess newR).store = store := by
          simp [refresh, hv, hf]
        rw [h]
      | some user =>
        by_cases hm : R ∈ user.refreshTokens
        · have h : (refresh store (some R) verify genAccess newR).store =
              updateTokensById store user.id (user.refreshTokens.erase R ++ [newR]) := by
            simp [refresh, hv, hf, hm]
          rw [h, rolesOf_updateTokensById]
        · have h : (refresh store (some R) verify genAccess newR).store =
              sweepAllUsers store R := by
            simp [refresh, hv, hf, hm]
          rw [h, rolesOf_sweepAllUsers]

/-- Helper: no branch of logout changes any (id, role) pair. -/
theorem rolesOf_logout (store : Store) (cookieToken : Option String) :
    rolesOf (logout store cookieToken).store = rolesOf store := by
  cases cookieToken with
  | none => rfl
  | some R => exact rolesOf_removeTokenFirstMatch store R

/-- C6: a successful signup appends one record whose role is admin iff the
user store was empty at the call (all existing records untouched), and the
other operations of the subsystem (login, refresh, logout), on any store
and any inputs, leave every (id, role) pair of the store unchanged, so no
role is ever reassigned after creation. -/
theorem C6_first_user_admin (store store2 : Store)
    (username password hash lusername lpassword : String)
    (check : String → String → Bool) (a r : String)
    (cookieToken : Option String) (verify : String → Except VerifyError String)
    (genAccess : String → String → String) (newR : String)
    (hu : username ≠ "") (hp : password ≠ "")
    (hnew : findByUsername store username = none) :
    (signup store username password hash).status = 201 ∧
    (signup store username password hash).store =
      store ++ [⟨freshId store, username, hash,
        if store.length = 0 then "admin" else "user", []⟩] ∧
    rolesOf (login store2 lusername lpassword check a r).store = rolesOf store2 ∧
    rolesOf (refresh store2 cookieToken verify genAccess newR).store = rolesOf store2 ∧
    rolesOf (logout store2 cookieToken).store = rolesOf store2 := by
  have hb : (username == "" || password == "") = false := by simp [hu, hp]
  refine ⟨?_, ?_, rolesOf_login store2 lusername lpassword check a r,
    rolesOf_refresh store2 cookieToken verify genAccess newR,
    rolesOf_logout store2 cookieToken⟩
  · simp [signup, hb, hnew]
  · by_cases hlen : store.length = 0
    · simp [signup, hb, hnew, hlen]
    · simp [signup, hb, hnew, hlen]

/-- C6 witness: signup on the empty store creates the admin, signup on the
resulting one-user store creates a plain user. -/
theorem C6_first_user_admin_witness :
    (signup [] "alice" "pw" "h").status = 201 ∧
    (signup [] "alice" "pw" "h").store =
      [] ++ [⟨freshId [], "alice", "h", if List.length ([] : Store) = 0 then "admin" else "user", []⟩] ∧
    (signup [⟨1, "alice", "h", "admin", []⟩] "bob" "pw2" "h2").store =
      [⟨1, "alice", "h", "admin", []⟩] ++
        [⟨freshId [⟨1, "alice", "h", "admin", []⟩], "bob", "h2",
          if List.length ([⟨1, "alice", "h", "admin", []⟩] : Store) = 0 then "admin" else "user", []⟩] := by
  have h1 := C6_first_user_admin [] [] "alice" "pw" "h" "x" "y" (fun p h => p == h) "a" "r"
    none (fun _ => Except.error VerifyError.invalid) (fun u _ => u) "N"
    (by decide) (by decide) rfl
  have h2 := C6_first_user_admin [⟨1, "alice", "h", "admin", []⟩]
    [] "bob" "pw2" "h2" "x" "y" (fun p h => p == h) "a" "r"
    none (fun _ => Except.error VerifyError.invalid) (fun u _ => u) "N"
    (by decide) (by decide) (by decide)
  exact ⟨h1.1, h1.2.1, h2.2.1⟩

/-- C7: a successful login (ids of the store distinct, as the primary key
column guarantees) returns 200 and its only persisted change is appending
the new refresh token to the end of the list of the logged-in user: every
record keeps id, username, passwordHash, role and its previous tokens, and
every other record is completely unchanged. -/
theorem C7_login_frame (store : Store) (username password : String)
    (check : String → String → Bool) (newA newR : String) (user : UserRecord)
    (hu : username ≠ "") (hp : password ≠ "")
    (hfound : findByUsername store username = some user)
    (hpw : check password user.passwordHash = true)
    (hids : (store.map (fun u => u.id)).Nodup) :
    (login store username password check newA newR).status = 200 ∧
    (login store username password check newA newR).store =
      store.map (fun x =>
        if x.id = user.id then { x with refreshTokens := x.refreshTokens ++ [newR] } else x) := by
  have hb : (username == "" || password == "") = false := by simp [hu, hp]
  have hmem : user ∈ store := List.mem_of_find?_eq_some hfound
  have hstat : (login store username password check newA newR).status = 200 := by
    simp [login, hb, hfound, hpw]
  have hres : (login store username password check newA newR).store =
      updateTokensById store user.id (user.refreshTokens ++ [newR]) := by
    simp [login, hb, hfound, hpw]
  refine ⟨hstat, ?_⟩
  rw [hres]
  unfold updateTokensById
  apply List.map_congr_left
  intro x hx
  by_cases hid : x.id = user.id
  · have hxu : x = user := List.inj_on_of_nodup_map hids hx hmem hid
    subst hxu
    simp
  · simp [hid]

/-- C7 witness: two-user store, alice logs in, the bob record is untouched
and the alice record only gains token R at the end. -/
theorem C7_login_frame_witness :
    (login [⟨1, "alice", "ha", "admin", ["A0"]⟩, ⟨2, "bob", "hb", "user", ["B0"]⟩]
      "alice" "pw" (fun _ _ => true) "A" "R").status = 200 ∧
    (login [⟨1, "alice", "ha", "admin", ["A0"]⟩, ⟨2, "bob", "hb", "user", ["B0"]⟩]
      "alice" "pw" (fun _ _ => true) "A" "R").store =
      [⟨1, "alice", "ha", "admin", ["A0"]⟩, ⟨2, "bob", "hb", "user", ["B0"]⟩].map (fun x =>
        if x.id = 1 then { x with refreshTokens := x.refreshTokens ++ ["R"] } else x) := by
  have h := C7_login_frame
    [⟨1, "alice", "ha", "admin", ["A0"]⟩, ⟨2, "bob", "hb", "user", ["B0"]⟩]
    "alice" "pw" (fun _ _ => true) "A" "R" ⟨1, "alice", "ha", "admin", ["A0"]⟩
    (by decide) (by decide) (by decide) rfl (by decide)
  exact ⟨h.1, h.2⟩

/-- C9: a successful refresh signs the new access token with the role read
from the stored user record (the refresh token claim carries only the
username) and the isAdmin response flag is computed from that same stored
role, so a role change in the store takes effect at the next refresh. -/
theorem C9_role_from_store (store : Store) (R username : String) (user : UserRecord)
    (verify : String → Except VerifyError String)
    (genAccess : String → String → String) (newR : String)
    (hverify : verify R = Except.ok username)
    (hfound : findByUsername store username = some user)
    (hmem : R ∈ user.refreshTokens) :
    (refresh store (some R) verify genAccess newR).status = 200 ∧
    CookieOp.set "access_token" (genAccess username user.role) true accessCookieMaxAge ∈
      (refresh store (some R) verify genAccess newR).cookies ∧
    (refresh store (some R) verify genAccess newR).isAdmin = some (user.role == "admin") := by
  have hres : refresh store (some R) verify genAccess newR =
      ⟨200, some "Token refreshed successfully", some (user.role == "admin"),
        [CookieOp.set "access_token" (genAccess username user.role) true accessCookieMaxAge,
         CookieOp.set "refresh_token" newR true refreshCookieMaxAge],
        updateTokensById store user.id (user.refreshTokens.erase R ++ [newR])⟩ := by
    simp [refresh, hverify, hfound, hmem]
  rw [hres]
  exact ⟨rfl, by simp, rfl⟩

/-- C9 witness: the stored role of alice is editor, and the access token is
signed with editor regardless of anything carried by the token. -/
theorem C9_role_from_store_witness :
    (refresh [⟨1, "alice", "h", "editor", ["R"]⟩] (some "R")
      (fun t => if t == "R" then Except.ok "alice" else Except.error VerifyError.invalid)
      (fun u rl => u ++ ":" ++ rl) "N").status = 200 ∧
    CookieOp.set "access_token" ("alice" ++ ":" ++ "editor") true accessCookieMaxAge ∈
      (refresh [⟨1, "alice", "h", "editor", ["R"]⟩] (some "R")
        (fun t => if t == "R" then Except.ok "alice" else Except.error VerifyError.invalid)
        (fun u rl => u ++ ":" ++ rl) "N").cookies := by
  have h := C9_role_from_store [⟨1, "alice", "h", "editor", ["R"]⟩] "R" "alice"
    ⟨1, "alice", "h", "editor", ["R"]⟩
    (fun t => if t == "R" then Except.ok "alice" else Except.error VerifyError.invalid)
    (fun u rl => u ++ ":" ++ rl) "N" rfl (by decide) (by decide)
  exact ⟨h.1, h.2.1⟩

/-- C10: a successful refresh removes exactly the first occurrence of the
presented token and appends exactly the new token in the persisted write,
so the token list written for the user keeps all other entries in order
and its length is unchanged. -/
theorem C10_rotation_preserves_count (store : Store) (R username : String)
    (user : UserRecord) (verify : String → Except VerifyError String)
    (genAccess : String → String → String) (newR : String)
    (hverify : verify R = Except.ok username)
    (hfound : findByUsername store username = some user)
    (hmem : R ∈ user.refreshTokens) :
    (refresh store (some R) verify genAccess newR).status = 200 ∧
    ∃ l1 l2, R ∉ l1 ∧ user.refreshTokens = l1 ++ R :: l2 ∧
      ∀ u2 ∈ (refresh store (some R) verify genAccess newR).store, u2.id = user.id →
        u2.refreshTokens = (l1 ++ l2) ++ [newR] ∧
        u2.refreshTokens.length = user.refreshTokens.length := by
  obtain ⟨l1, l2, hnl1, heq, herase⟩ := List.exists_erase_eq hmem
  have hstat : (refresh store (some R) verify genAccess newR).status = 200 := by
    simp [refresh, hverify, hfound, hmem]
  have hres : (refresh store (some R) verify genAccess newR).store =
      updateTokensById store user.id (user.refreshTokens.erase R ++ [newR]) := by
    simp [refresh, hverify, hfound, hmem]
  refine ⟨hstat, l1, l2, hnl1, heq, ?_⟩
  intro u2 hu2 hid
  rw [hres] at hu2
  simp only [updateTokensById, List.mem_map] at hu2
  obtain ⟨x, hx, rfl⟩ := hu2
  by_cases hxid : (x.id == user.id) = true
  · have htok : (if x.id == user.id then
        { x with refreshTokens := user.refreshTokens.erase R ++ [newR] } else x).refreshTokens =
        user.refreshTokens.erase R ++ [newR] := by
      simp [hxid]
    constructor
    · rw [htok, herase]
    · rw [htok, herase, heq]
      simp [List.length_append]
  · exfalso
    simp only [if_neg (by simp_all)] at hid
    simp [hid] at hxid

/-- C10 witness: the list of alice is [A, R, B]; the write for the refresh
presenting R is [A, B, N], same length three. -/
theorem C10_rotation_preserves_count_witness :
    (refresh [⟨1, "alice", "h", "admin", ["A", "R", "B"]⟩] (some "R")
      (fun t => if t == "R" then Except.ok "alice" else Except.error VerifyError.invalid)
      (fun u _ => u) "N").status = 200 := by
  have h := C10_rotation_preserves_count [⟨1, "alice", "h", "admin", ["A", "R", "B"]⟩]
    "R" "alice" ⟨1, "alice", "h", "admin", ["A", "R", "B"]⟩
    (fun t => if t == "R" then Except.ok "alice" else Except.error VerifyError.invalid)
    (fun u _ => u) "N" rfl (by decide) (by decide)
  exact h.1

/-- Helper: a token-list write keyed on the id of the user that
findByUsername returned is seen by the next findByUsername for the same
name as exactly that user with the new token list (usernames are untouched
by the write, so the first matching row keeps its position). -/
theorem findByUsername_updateTokensById (store : Store) (user : UserRecord)
    (name : String) (tokens : List String)
    (hfound : findByUsername store name = some user) :
    findByUsername (updateTokensById store user.id tokens) name =
      some { user with refreshTokens := tokens } := by
  induction store with
  | nil => simp [findByUsername] at hfound
  | cons x xs ih =>
    simp only [findByUsername, updateTokensById, List.map_cons] at hfound ih ⊢
    by_cases hx : (x.username == name) = true
    · rw [List.find?_cons_of_pos (p := fun (u : UserRecord) => u.username == name) _ hx] at hfound
      injection hfound with hxu
      subst hxu
      simp [hx]
    · rw [List.find?_cons_of_neg (p := fun (u : UserRecord) => u.username == name) _ hx] at hfound
      rw [List.find?_cons_of_neg (p := fun (u : UserRecord) => u.username == name)]
      · exact ih hfound
      · by_cases hgid : (x.id == user.id) = true <;> simp [hgid, hx]

/-- C1 counterexample: alice holds the token R twice (the list operations
of the source never enforce distinctness and the token generator can
repeat a value within one signing second).  A refresh presenting R
succeeds, yet the persisted list still contains R, and a second refresh
presenting R succeeds again with 200 instead of being rejected with
401. -/
theorem C1_counterexample :
    (refresh [⟨1, "alice", "h", "admin", ["R", "R"]⟩] (some "R")
      (fun t => if t == "R" then Except.ok "alice" else Except.error VerifyError.invalid)
      (fun u _ => u) "R2").status = 200 ∧
    (refresh [⟨1, "alice", "h", "admin", ["R", "R"]⟩] (some "R")
      (fun t => if t == "R" then Except.ok "alice" else Except.error VerifyError.invalid)
      (fun u _ => u) "R2").store = [⟨1, "alice", "h", "admin", ["R", "R2"]⟩] ∧
    (refresh
      (refresh [⟨1, "alice", "h", "admin", ["R", "R"]⟩] (some "R")
        (fun t => if t == "R" then Except.ok "alice" else Except.error VerifyError.invalid)
        (fun u _ => u) "R2").store
      (some "R")
      (fun t => if t == "R" then Except.ok "alice" else Except.error VerifyError.invalid)
      (fun u _ => u) "R3").status = 200 := by
  decide

/-- C1 amended: provided the presented token R occurs exactly once in the
stored list of its owner and the freshly generated refresh token differs
from R, a successful refresh leaves a store in which the owner no longer
holds R, and a subsequent refresh presenting R takes the not-recognized
path: 401, the not-found message, and no cookie is set, so no token is
issued. -/
theorem C1_rotation_invariant (store : Store) (R username : String)
    (user : UserRecord) (verify : String → Except VerifyError String)
    (genAccess : String → String → String) (newR newR2 : String)
    (hverify : verify R = Except.ok username)
    (hfound : findByUsername store username = some user)
    (hcount : user.refreshTokens.count R = 1)
    (hne : newR ≠ R) :
    (refresh store (some R) verify genAccess newR).status = 200 ∧
    (∀ u2, findByUsername (refresh store (some R) verify genAccess newR).store username =
      some u2 → R ∉ u2.refreshTokens) ∧
    (refresh (refresh store (some R) verify genAccess newR).store (some R)
      verify genAccess newR2).status = 401 ∧
    (refresh (refresh store (some R) verify genAccess newR).store (some R)
      verify genAccess newR2).message = some "Refresh token not found" ∧
    ∀ n v ho ma, CookieOp.set n v ho ma ∉
      (refresh (refresh store (some R) verify genAccess newR).store (some R)
        verify genAccess newR2).cookies := by
  have hmem : R ∈ user.refreshTokens := by
    rw [← List.count_pos_iff]
    omega
  have hstat : (refresh store (some R) verify genAccess newR).status = 200 := by
    simp [refresh, hverify, hfound, hmem]
  have hres : (refresh store (some R) verify genAccess newR).store =
      updateTokensById store user.id (user.refreshTokens.erase R ++ [newR]) := by
    simp [refresh, hverify, hfound, hmem]
  have hafter : findByUsername (refresh store (some R) verify genAccess newR).store username =
      some { user with refreshTokens := user.refreshTokens.erase R ++ [newR] } := by
    rw [hres]
    exact findByUsername_updateTokensById store user username
      (user.refreshTokens.erase R ++ [newR]) hfound
  have hnot : R ∉ user.refreshTokens.erase R ++ [newR] := by
    intro hmem2
    rcases List.mem_append.1 hmem2 with h | h
    · have hc : (user.refreshTokens.erase R).count R = 0 := by
        rw [List.count_erase_self, hcount]
      exact List.count_eq_zero.mp hc h
    · simp at h
      exact hne h.symm
  have h2gen : ∀ S1 : Store, findByUsername S1 username =
      some { user with refreshTokens := user.refreshTokens.erase R ++ [newR] } →
      refresh S1 (some R) verify genAccess newR2 =
      ⟨401, some "Refresh token not found", none, clearAuthCookies, sweepAllUsers S1 R⟩ := by
    intro S1 hS1
    simp [refresh, hverify, hS1, hnot]
  have h2 := h2gen (refresh store (some R) verify genAccess newR).store hafter
  refine ⟨hstat, ?_, ?_, ?_, ?_⟩
  · intro u2 hu2
    rw [hafter] at hu2
    injection hu2 with hu2
    subst hu2
    exact hnot
  · rw [h2]
  · rw [h2]
  · rw [h2]
    intro n v ho ma h
    simp [clearAuthCookies] at h

/-- C1 witness: alice holds R exactly once; the refresh rotates it away
and the replay is rejected. -/
theorem C1_rotation_invariant_witness :
    (refresh [⟨1, "alice", "h", "admin", ["R"]⟩] (some "R")
      (fun t => if t == "R" then Except.ok "alice" else Except.error VerifyError.invalid)
      (fun u _ => u) "R2").status = 200 ∧
    (refresh
      (refresh [⟨1, "alice", "h", "admin", ["R"]⟩] (some "R")
        (fun t => if t == "R" then Except.ok "alice" else Except.error VerifyError.invalid)
        (fun u _ => u) "R2").store
      (some "R")
      (fun t => if t == "R" then Except.ok "alice" else Except.error VerifyError.invalid)
      (fun u _ => u) "R3").status = 401 := by
  have h := C1_rotation_invariant [⟨1, "alice", "h", "admin", ["R"]⟩] "R" "alice"
    ⟨1, "alice", "h", "admin", ["R"]⟩
    (fun t => if t == "R" then Except.ok "alice" else Except.error VerifyError.invalid)
    (fun u _ => u) "R2" "R3" rfl (by decide) (by decide) (by decide)
  exact ⟨h.1, h.2.2.1⟩

end LabDash
